import Mathlib

/-!
Shallow embedding of the research-agent pipeline (src/agent.py) and proofs
about its context assembler, lookup helpers, stage runner and UI handler.
-/

namespace ResearchAgent

/-- Truthiness of a Python string: nonempty. -/
def pyTruthy (s : String) : Bool := decide (s ≠ "")

/-- Characters removed by the Python strip method called with no argument. -/
def isPySpace (c : Char) : Bool :=
  c = ' ' || c = '\t' || c = '\n' || c = '\r' || c = '\x0b' || c = '\x0c'

/-- List version of the Python strip method: remove leading and trailing whitespace. -/
def pyStripList (l : List Char) : List Char :=
  ((l.dropWhile isPySpace).reverse.dropWhile isPySpace).reverse

/-- Python strip on strings. -/
def pyStrip (s : String) : String := ⟨pyStripList s.data⟩

/-- List version of Python rstrip called with a period argument: drop all trailing periods. -/
def pyRstripDotList (l : List Char) : List Char :=
  (l.reverse.dropWhile (fun c => decide (c = '.'))).reverse

/-- Python rstrip with a period argument, on strings. -/
def pyRstripDot (s : String) : String := ⟨pyRstripDotList s.data⟩

/-- Python slice keeping the first n characters. -/
def pySlice (s : String) (n : Nat) : String := ⟨s.data.take n⟩

/-- Fields of the Wikipedia summary endpoint JSON that wiki_summary reads:
status, optional title, optional extract, and the optional nested canonical
desktop page URL. -/
structure WikiResponse where
  status : Nat
  title : Option String
  extract : Option String
  canonical : Option String
  deriving DecidableEq

/-- Record returned by wiki_summary. -/
structure WikiRecord where
  title : String
  summary : String
  url : String
  deriving DecidableEq

/-- Embedding of wiki_summary from src/agent.py. The request either raises
(modelled by Except.error) or yields a status with a parsed body; any raised
exception is caught and the default record returned, as in the try/except. -/
def wiki_summary (topic : String) (resp : Except Unit WikiResponse) : WikiRecord :=
  match resp with
  | .error _ => ⟨topic, "", ""⟩
  | .ok r =>
    if r.status = 200 then
      ⟨r.title.getD topic, r.extract.getD "", r.canonical.getD ""⟩
    else ⟨topic, "", ""⟩

/-- Anchor element matching the result-link class: href attribute (empty when
absent) and whitespace-normalized visible text. -/
structure Anchor where
  href : String
  text : String
  deriving DecidableEq

/-- Quick link produced by ddg_links, with title and url fields. -/
structure Link where
  title : String
  url : String
  deriving DecidableEq

/-- HTML search response: HTTP status and the anchors matching the result-link
class, in document order. -/
structure DdgResponse where
  status : Nat
  anchors : List Anchor
  deriving DecidableEq

/-- Embedding of ddg_links from src/agent.py: on status 200 it walks the first
max_results matching anchors and keeps those with truthy href and text; any
exception or other status yields the empty list. -/
def ddg_links (resp : Except Unit DdgResponse) (max_results : Nat) : List Link :=
  match resp with
  | .error _ => []
  | .ok r =>
    if r.status = 200 then
      ((r.anchors.take max_results).filter
        (fun a => pyTruthy a.href && pyTruthy a.text)).map
        (fun a => ⟨a.text, a.href⟩)
    else []

/-- First section of the context block: the wiki summary truncated to 800
characters by Python slicing. -/
def wikiSection (summary : String) : String := "WIKIPEDIA: " ++ pySlice summary 800

/-- Second section: the canonical URL, or the placeholder when the URL is falsy. -/
def urlSection (url : String) : String :=
  "WIKI_URL: " ++ (if pyTruthy url then url else "N/A")

/-- Third section: the bulleted quick links, or the placeholder when the list is
empty. -/
def linksSection (links : List Link) : String :=
  if links.isEmpty then "QUICK_LINKS: N/A"
  else "QUICK_LINKS:\n" ++
    String.intercalate "\n" (links.map (fun x => "- " ++ x.title ++ ": " ++ x.url))

/-- Embedding of the context_block list built in run_pipeline. -/
def context_block (wiki : WikiRecord) (links : List Link) : List String :=
  [wikiSection wiki.summary, urlSection wiki.url, linksSection links]

/-- Embedding of context_text: the three sections joined by newlines. -/
def context_text (wiki : WikiRecord) (links : List Link) : String :=
  String.intercalate "\n" (context_block wiki links)

/-- Title input built in run_pipeline: strip the topic, then drop trailing periods. -/
def titleOf (user_topic : String) : String := pyRstripDot (pyStrip user_topic)

/-- Immutable instruction template of the research task as written at module load. -/
def research_task_description : String :=
  "Use the provided external snippets and links to compile facts about the topic: \x27{topic}\x27. " ++
  "Return:\n" ++
  "1) 5-7 bullet points of key facts (<= 120 words total)\n" ++
  "2) A short risks/limitations note (<= 40 words)\n" ++
  "3) A list of 5 sources as markdown list [title](url)\n" ++
  "Be concise and specific. No repetition."

/-- Update applied to the research task description by run_pipeline: the
context text is prepended to the CURRENT description, mutating the shared
task object. -/
def prependContext (ctx desc : String) : String :=
  "CONTEXT (external snippets & links):\n" ++ ctx ++ "\n\n" ++ desc

/-- Instruction text presented to stage 1 in a run, as a function of the
description state the shared task held before the run; it is also the state
the shared task holds for the next run. -/
def stage1Instructions (ctx descBefore : String) : String := prependContext ctx descBefore

/-- Sequential crew kickoff: stage 1 consumes its instruction text, each later
stage consumes the prior stage output, and the crew result is the raw text of
the final (report) stage. The three generation calls are abstract parameters
since the model backend is external. -/
def kickoff (gen1 gen2 gen3 : String → String) (stage1Text : String) : String :=
  gen3 (gen2 (gen1 stage1Text))

/-- Embedding of run_pipeline from src/agent.py: perform the two lookups,
build the context text, prepend it to the shared task description and kick
off the three stages. -/
def run_pipeline (gen1 gen2 gen3 : String → String)
    (wresp : Except Unit WikiResponse) (dresp : Except Unit DdgResponse)
    (descBefore : String) (user_topic : String) : String :=
  kickoff gen1 gen2 gen3
    (stage1Instructions
      (context_text (wiki_summary user_topic wresp) (ddg_links dresp 5)) descBefore)

/-- Configured API key at the top of src/agent.py. -/
def GROQ_API_KEY : String := ""

/-- Guard at the top of src/agent.py: a warning is shown iff the key equals the
placeholder string. -/
def apiKeyGuardWarns (key : String) : Bool := decide (key = "YOUR_GROQ_API_KEY")

/-- Observable outcome of one rerun of the UI action block at the bottom of
src/agent.py. -/
structure HandlerOutcome where
  final_report_md : String
  ranPipeline : Bool
  messagesShown : List String
  reportDisplayed : Bool
  downloadOffered : Bool
  deriving DecidableEq

/-- Embedding of the UI action block: the pipeline runs only when the button
was pressed and the stripped topic is truthy; on success the stripped result
is stored, on an exception an error message is shown and the stored report
kept; the report section and download button appear iff the stored report is
truthy. -/
def handle (run_btn : Bool) (topicInput : String) (prev : String)
    (pipeline : String → Except String String) : HandlerOutcome :=
  if run_btn && pyTruthy (pyStrip topicInput) then
    match pipeline (pyStrip topicInput) with
    | .ok md => ⟨pyStrip md, true, [], pyTruthy (pyStrip md), pyTruthy (pyStrip md)⟩
    | .error e => ⟨prev, true, ["Error: " ++ e], pyTruthy prev, pyTruthy prev⟩
  else ⟨prev, false, [], pyTruthy prev, pyTruthy prev⟩

/-- Failure of the encyclopedia lookup: a raised exception or a non-200 status. -/
def wikiLookupFailed : Except Unit WikiResponse → Bool
  | .error _ => true
  | .ok r => decide (r.status ≠ 200)

/-- Failure of the search lookup: a raised exception or a non-200 status. -/
def ddgLookupFailed : Except Unit DdgResponse → Bool
  | .error _ => true
  | .ok r => decide (r.status ≠ 200)

/-- C1: counterexample. A 200 response with one anchor matching the result-link
class whose href is empty yields an empty list, not a list of length
min 1 5 = 1, refuting the claim as stated. -/
theorem C1_counterexample :
    (ddg_links (Except.ok ⟨200, [⟨"", "Result title"⟩]⟩) 5).length ≠ min 1 5 := by
  decide

/-- C1 (amended): when every matching anchor has nonempty href and nonempty
visible text, ddg_links with max_results 5 returns exactly the first
min K 5 anchors, in document order, each mapped to its title and url. -/
theorem C1_amended (anchors : List Anchor)
    (h : ∀ a ∈ anchors, a.href ≠ "" ∧ a.text ≠ "") :
    ddg_links (Except.ok ⟨200, anchors⟩) 5
        = (anchors.take 5).map (fun a => (⟨a.text, a.href⟩ : Link)) ∧
    (ddg_links (Except.ok ⟨200, anchors⟩) 5).length = min anchors.length 5 := by
  have hfilter : (anchors.take 5).filter (fun a => pyTruthy a.href && pyTruthy a.text)
      = anchors.take 5 := by
    rw [List.filter_eq_self]
    intro a ha
    have hm := h a (List.take_subset 5 anchors ha)
    simp [pyTruthy, hm.1, hm.2]
  constructor
  · simp [ddg_links, hfilter]
  · simp [ddg_links, hfilter, List.length_take, Nat.min_comm]

/-- C1 amended witness at a concrete 200 response with two anchors. -/
theorem C1_amended_witness :
    ddg_links (Except.ok ⟨200, [⟨"https://a.example", "Alpha"⟩, ⟨"https://b.example", "Beta"⟩]⟩) 5
        = (([⟨"https://a.example", "Alpha"⟩, ⟨"https://b.example", "Beta"⟩] : List Anchor).take 5).map
            (fun a => (⟨a.text, a.href⟩ : Link)) ∧
    (ddg_links (Except.ok ⟨200, [⟨"https://a.example", "Alpha"⟩, ⟨"https://b.example", "Beta"⟩]⟩) 5).length
        = min ([⟨"https://a.example", "Alpha"⟩, ⟨"https://b.example", "Beta"⟩] : List Anchor).length 5 :=
  C1_amended [⟨"https://a.example", "Alpha"⟩, ⟨"https://b.example", "Beta"⟩] (by decide)

/-- C2: on any exception or non-200 status in both lookups, wiki_summary
returns the default record with empty summary and url, ddg_links returns the
empty list, and the context block is still assembled with its three sections. -/
theorem C2_lookups_never_propagate (topic : String) (w : Except Unit WikiResponse)
    (d : Except Unit DdgResponse) (n : Nat)
    (hw : wikiLookupFailed w = true) (hd : ddgLookupFailed d = true) :
    wiki_summary topic w = ⟨topic, "", ""⟩ ∧ ddg_links d n = [] ∧
    (context_block (wiki_summary topic w) (ddg_links d n)).length = 3 := by
  refine ⟨?_, ?_, rfl⟩
  · cases w with
    | error e => rfl
    | ok r =>
        have hs : r.status ≠ 200 := by simpa [wikiLookupFailed] using hw
        simp [wiki_summary, hs]
  · cases d with
    | error e => rfl
    | ok r =>
        have hs : r.status ≠ 200 := by simpa [ddgLookupFailed] using hd
        simp [ddg_links, hs]

/-- C2 witness: both lookups raise. -/
theorem C2_witness :
    wiki_summary "Quantum computing" (Except.error ()) = ⟨"Quantum computing", "", ""⟩ ∧
    ddg_links (Except.error ()) 5 = [] ∧
    (context_block (wiki_summary "Quantum computing" (Except.error ()))
      (ddg_links (Except.error ()) 5)).length = 3 :=
  C2_lookups_never_propagate "Quantum computing" (Except.error ()) (Except.error ()) 5 rfl rfl

/-- C3: the truncated summary included as the first section of the context
block is at most 800 characters, for every wiki record and link list. -/
theorem C3_summary_at_most_800 (wiki : WikiRecord) (links : List Link) :
    (context_block wiki links).head? = some ("WIKIPEDIA: " ++ pySlice wiki.summary 800) ∧
    (pySlice wiki.summary 800).length ≤ 800 := by
  refine ⟨rfl, ?_⟩
  show (wiki.summary.data.take 800).length ≤ 800
  exact List.length_take_le 800 wiki.summary.data

/-- C8: the context block always has exactly the three labeled sections, the
URL section carries the placeholder when the url is empty, and the links
section carries the placeholder when the link list is empty. -/
theorem C8_three_sections (wiki : WikiRecord) (links : List Link) :
    context_block wiki links
        = [wikiSection wiki.summary, urlSection wiki.url, linksSection links] ∧
    (context_block wiki links).length = 3 ∧
    (wiki.url = "" → urlSection wiki.url = "WIKI_URL: N/A") ∧
    (links = [] → linksSection links = "QUICK_LINKS: N/A") := by
  refine ⟨rfl, rfl, ?_, ?_⟩
  · intro h
    simp [urlSection, pyTruthy, h]
  · intro h
    simp [linksSection, h]

/-- C8 witness at a record with empty url and an empty link list. -/
theorem C8_witness :
    urlSection "" = "WIKI_URL: N/A" ∧ linksSection ([] : List Link) = "QUICK_LINKS: N/A" ∧
    (context_block ⟨"T", "S", ""⟩ []).length = 3 :=
  ⟨(C8_three_sections ⟨"T", "S", ""⟩ []).2.2.1 rfl,
   (C8_three_sections ⟨"T", "S", ""⟩ []).2.2.2 rfl,
   (C8_three_sections ⟨"T", "S", ""⟩ []).2.1⟩

/-- C4: counterexample. With the button pressed and a whitespace-only topic,
the handler refuses to run but shows NO message at all, refuting the part of
the claim that a validation error is reported to the caller. -/
theorem C4_counterexample :
    (handle true "   " "previous report" (fun _ => Except.ok "fresh")).ranPipeline = false ∧
    (handle true "   " "previous report" (fun _ => Except.ok "fresh")).messagesShown = [] := by
  decide

/-- C4 (amended): with an empty or whitespace-only topic the handler never
invokes the pipeline and leaves the stored report unchanged, but it does so
silently: no validation error is reported. -/
theorem C4_amended (run_btn : Bool) (topicInput prev : String)
    (pipeline : String → Except String String) (h : pyStrip topicInput = "") :
    (handle run_btn topicInput prev pipeline).ranPipeline = false ∧
    (handle run_btn topicInput prev pipeline).messagesShown = [] ∧
    (handle run_btn topicInput prev pipeline).final_report_md = prev := by
  simp [handle, pyTruthy, h]

/-- C4 amended witness at a whitespace-only topic. -/
theorem C4_amended_witness :
    (handle true " \t " "prev" (fun _ => Except.ok "x")).ranPipeline = false ∧
    (handle true " \t " "prev" (fun _ => Except.ok "x")).messagesShown = [] ∧
    (handle true " \t " "prev" (fun _ => Except.ok "x")).final_report_md = "prev" :=
  C4_amended true " \t " "prev" (fun _ => Except.ok "x") (by decide)

/-- C5: the configured key is empty, the guard warns only on the placeholder
value so no warning is surfaced, and the handler still runs the pipeline, so
generation stages execute despite the empty key. -/
theorem C5_empty_key_not_refused :
    GROQ_API_KEY = "" ∧
    apiKeyGuardWarns GROQ_API_KEY = false ∧
    (handle true "Quantum computing" "" (fun _ => Except.ok "report")).ranPipeline = true := by
  decide

/-- C6: counterexample. After one run has prepended the context to the shared
task description, a second run with the same topic prepends it again, so the
stage 1 instruction text of the second run differs from that of the first,
refuting the no-mutation claim. -/
theorem C6_counterexample :
    stage1Instructions "WIKIPEDIA: \nWIKI_URL: N/A\nQUICK_LINKS: N/A"
        (stage1Instructions "WIKIPEDIA: \nWIKI_URL: N/A\nQUICK_LINKS: N/A" research_task_description)
      ≠ stage1Instructions "WIKIPEDIA: \nWIKI_URL: N/A\nQUICK_LINKS: N/A" research_task_description := by
  decide

/-- C6 (amended): run_pipeline mutates the shared research task at invocation
time: each run prepends the context header to the current description, so
successive runs accumulate and the instruction text presented on the next run
always differs from the one just presented. -/
theorem C6_amended (ctx desc : String) :
    stage1Instructions ctx desc = prependContext ctx desc ∧
    stage1Instructions ctx (stage1Instructions ctx desc) ≠ stage1Instructions ctx desc := by
  refine ⟨rfl, ?_⟩
  intro hEq
  have hlen := congrArg String.length hEq
  have hpos : 0 < ("CONTEXT (external snippets & links):\n" : String).length := by decide
  simp [stage1Instructions, prependContext, String.length_append] at hlen
  omega

/-- C7: when the run proceeds and every stage succeeds, the stored report
equals the whitespace-trimmed raw output of stage 3 applied to the chained
stage 1 and stage 2 outputs; no other rewriting occurs and no earlier stage
output is returned. -/
theorem C7_report_is_trimmed_stage3 (gen1 gen2 gen3 : String → String)
    (wresp : Except Unit WikiResponse) (dresp : Except Unit DdgResponse)
    (descBefore topicInput prev : String) (h : pyStrip topicInput ≠ "") :
    (handle true topicInput prev
        (fun t => Except.ok (run_pipeline gen1 gen2 gen3 wresp dresp descBefore t))).final_report_md
      = pyStrip (gen3 (gen2 (gen1 (stage1Instructions
          (context_text (wiki_summary (pyStrip topicInput) wresp) (ddg_links dresp 5))
          descBefore)))) := by
  simp [handle, pyTruthy, h, run_pipeline, kickoff]

/-- C7 witness with concrete stage functions and failing lookups. -/
theorem C7_witness :
    (handle true "AI" "old"
        (fun t => Except.ok (run_pipeline (fun s => s) (fun s => s) (fun _ => " Report ")
          (Except.error ()) (Except.error ()) research_task_description t))).final_report_md
      = pyStrip " Report " :=
  C7_report_is_trimmed_stage3 (fun s => s) (fun s => s) (fun _ => " Report ")
    (Except.error ()) (Except.error ()) research_task_description "AI" "old" (by decide)

/-- Helper: a list fixed by pyStripList is fixed by the leading dropWhile. -/
theorem dropWhile_self_of_strip_self (l : List Char) (h : pyStripList l = l) :
    l.dropWhile isPySpace = l := by
  have hsuffix := List.dropWhile_suffix (l := l) isPySpace
  have h1 : (l.dropWhile isPySpace).length ≤ l.length := hsuffix.length_le
  have h2 : l.length ≤ (l.dropWhile isPySpace).length := by
    conv_lhs => rw [← h]
    calc (pyStripList l).length
        = ((l.dropWhile isPySpace).reverse.dropWhile isPySpace).length := by
          simp [pyStripList]
      _ ≤ (l.dropWhile isPySpace).reverse.length :=
          (List.dropWhile_suffix (l := (l.dropWhile isPySpace).reverse) isPySpace).length_le
      _ = (l.dropWhile isPySpace).length := by simp
  exact hsuffix.sublist.eq_of_length (Nat.le_antisymm h1 h2)

/-- Helper: appending a non-space character to a list fixed by the leading
dropWhile leaves the appended list fixed as well. -/
theorem dropWhile_append_single (l : List Char) (c : Char) (hc : isPySpace c = false)
    (h : l.dropWhile isPySpace = l) :
    (l ++ [c]).dropWhile isPySpace = l ++ [c] := by
  cases l with
  | nil => simp [List.dropWhile_cons, hc]
  | cons a t =>
      by_cases ha : isPySpace a = true
      · exfalso
        rw [List.dropWhile_cons, if_pos ha] at h
        have hlen := congrArg List.length h
        have hle : (t.dropWhile isPySpace).length ≤ t.length :=
          (List.dropWhile_suffix (l := t) isPySpace).length_le
        simp at hlen
        omega
      · have ha2 : isPySpace a = false := by
          cases hb : isPySpace a
          · rfl
          · exact absurd hb ha
        simp [List.dropWhile_cons, ha2]

/-- Helper: a period is not Python whitespace. -/
theorem isPySpace_dot : isPySpace '.' = false := by decide

/-- Helper: appending a non-space character to a list fixed by pyStripList
commutes with stripping. -/
theorem pyStripList_append_single (l : List Char) (c : Char) (hc : isPySpace c = false)
    (h : pyStripList l = l) :
    pyStripList (l ++ [c]) = l ++ [c] := by
  have h1 := dropWhile_self_of_strip_self l h
  have h2 := dropWhile_append_single l c hc h1
  simp [pyStripList, h2, List.dropWhile_cons, hc]

/-- Helper: a trailing period is removed before the rest by the dot rstrip. -/
theorem pyRstripDotList_append_dot (l : List Char) :
    pyRstripDotList (l ++ ['.']) = pyRstripDotList l := by
  simp [pyRstripDotList, List.dropWhile_cons]

/-- Helper: the dot rstrip is the identity when the last character is not a
period. -/
theorem pyRstripDotList_eq_self (l : List Char) (h : l.getLast? ≠ some '.') :
    pyRstripDotList l = l := by
  unfold pyRstripDotList
  cases hr : l.reverse with
  | nil =>
      have : l = [] := by simpa using congrArg List.reverse hr
      simp [this]
  | cons c t =>
      have hc : c ≠ '.' := by
        intro hcd
        apply h
        rw [← List.head?_reverse, hr, hcd]
        rfl
      rw [List.dropWhile_cons]
      simp [hc, ← hr]

/-- C9: for a trimmed topic, the title passed to the report stage equals the
topic when the topic has no trailing period, and appending a single period to
the topic yields the same title as the topic alone. -/
theorem C9_title_trailing_period (t : String) (ht : pyStrip t = t) :
    (t.data.getLast? ≠ some '.' → titleOf t = t) ∧
    titleOf (t ++ ".") = titleOf t := by
  have hdata : pyStripList t.data = t.data := congrArg String.data ht
  constructor
  · intro hlast
    show pyRstripDot (pyStrip t) = t
    rw [ht]
    show (⟨pyRstripDotList t.data⟩ : String) = t
    rw [pyRstripDotList_eq_self t.data hlast]
  · show pyRstripDot (pyStrip (t ++ ".")) = pyRstripDot (pyStrip t)
    rw [ht]
    have h1 : pyStrip (t ++ ".") = ⟨t.data ++ ['.']⟩ := by
      show (⟨pyStripList (t.data ++ ['.'])⟩ : String) = ⟨t.data ++ ['.']⟩
      rw [pyStripList_append_single t.data '.' isPySpace_dot hdata]
    rw [h1]
    show (⟨pyRstripDotList (t.data ++ ['.'])⟩ : String) = ⟨pyRstripDotList t.data⟩
    rw [pyRstripDotList_append_dot]

/-- C9 witness at a concrete trimmed topic without and with an appended period. -/
theorem C9_witness :
    titleOf "AI in healthcare" = "AI in healthcare" ∧
    titleOf ("AI in healthcare" ++ ".") = titleOf "AI in healthcare" :=
  ⟨(C9_title_trailing_period "AI in healthcare" (by decide)).1 (by decide),
   (C9_title_trailing_period "AI in healthcare" (by decide)).2⟩

/-- C10: when the pipeline raises, the stored report is unchanged, the error
message is shown, and a nonempty previous report is still displayed and
offered for download. -/
theorem C10_error_preserves_report (topicInput prev e : String)
    (pipeline : String → Except String String)
    (hrun : pyStrip topicInput ≠ "")
    (herr : pipeline (pyStrip topicInput) = Except.error e)
    (hprev : prev ≠ "") :
    (handle true topicInput prev pipeline).final_report_md = prev ∧
    (handle true topicInput prev pipeline).messagesShown = ["Error: " ++ e] ∧
    (handle true topicInput prev pipeline).reportDisplayed = true ∧
    (handle true topicInput prev pipeline).downloadOffered = true := by
  simp [handle, pyTruthy, hrun, herr, hprev]

/-- C10 witness at a concrete failing pipeline with a previously stored report. -/
theorem C10_witness :
    (handle true "AI" "old report" (fun _ => Except.error "boom")).final_report_md = "old report" ∧
    (handle true "AI" "old report" (fun _ => Except.error "boom")).messagesShown = ["Error: " ++ "boom"] ∧
    (handle true "AI" "old report" (fun _ => Except.error "boom")).reportDisplayed = true ∧
    (handle true "AI" "old report" (fun _ => Except.error "boom")).downloadOffered = true :=
  C10_error_preserves_report "AI" "old report" "boom" (fun _ => Except.error "boom")
    (by decide) rfl (by decide)

end ResearchAgent
